import Mathlib

/-!
Verification of the orchestration repository: a shallow embedding of the
state machine (`src/state.py`), the workflow table (`src/workflows.py`),
the routers (`src/router.py` and the workflow-based router used by
`src/runner.py`), the turn engine (`src/runner.py`, `src/orchestrator.py`)
and the streaming process runner (`tee_run` in `src/runner.py`), together
with theorems settling the frozen claims C1..C10.

Modelling conventions:
* Python `int` is `Int` (arbitrary precision; for positive divisors Lean's
  `Int` `/` and `%` agree with Python's floor division and modulo).
* Python exceptions are `Except PyExc`; functions that mutate an object in
  place and may also raise return the mutated object next to the outcome.
* Timestamp regeneration (`_utc_now_iso`, `_lease_expires_iso`) is modelled
  by passing the fresh timestamp strings as explicit arguments.
* The filesystem of prompt files is an explicit list of existing paths.
-/

set_option autoImplicit false

/-- Python exception values raised by the orchestration code. -/
inductive PyExc where
  | valueError (msg : String)
  | fileNotFound (msg : String)
  | typeError (msg : String)
  | other (msg : String)
deriving Repr, DecidableEq

/-! ### Python string primitives

`str.strip`, `str.lower`, `str.split`, and `int(str)` re-implemented over
character lists, matching Python's behaviour on the inputs the program
feeds them. -/

/-- The whitespace characters stripped by Python's `str.strip()`. -/
def pySpaceChar (c : Char) : Bool :=
  c == ' ' || c == '\t' || c == '\n' || c == '\r' || c == '\x0b' || c == '\x0c'

/-- Python `str.strip()`: drop leading and trailing whitespace. -/
def pyStrip (s : String) : String :=
  String.mk (((s.toList.dropWhile pySpaceChar).reverse.dropWhile pySpaceChar).reverse)

/-- Python `str.lower()` (ASCII-sufficient for this program's mode strings). -/
def pyLower (s : String) : String :=
  String.mk (s.toList.map Char.toLower)

/-- Split a character list at every separator position (like Python
`str.split(sep)` with a one-character separator: empty fields are kept). -/
def splitCharsAux (p : Char → Bool) : List Char → List Char → List String
  | [], acc => [String.mk acc.reverse]
  | c :: cs, acc =>
    if p c then String.mk acc.reverse :: splitCharsAux p cs []
    else splitCharsAux p cs (c :: acc)

/-- Split a string at every character satisfying `p`. -/
def pySplitChar (s : String) (p : Char → Bool) : List String :=
  splitCharsAux p s.toList []

/-- Parse a digit run (no underscores, which this program never writes). -/
def pyParseDigits (ds : List Char) : Option Nat :=
  if ds.isEmpty then none
  else ds.foldl
    (fun acc c => match acc with
      | none => none
      | some n => if c.isDigit then some (n * 10 + (c.toNat - '0'.toNat)) else none)
    (some 0)

/-- Python `int(str)` after stripping: optional sign followed by digits. -/
def pyParseInt (s : String) : Option Int :=
  match s.toList with
  | '-' :: ds => (pyParseDigits ds).map (fun n => -(n : Int))
  | '+' :: ds => (pyParseDigits ds).map (fun n => (n : Int))
  | ds => (pyParseDigits ds).map (fun n => (n : Int))

/-- `OrchestrationState` from `src/state.py` (dataclass fields in source order). -/
structure OrchestrationState where
  workflow_name : String
  step_index : Int
  iteration : Int
  expected_step : Option String
  status : String
  last_update : String
  lease_expires_at : String
  galph_commit : Option String
  ralph_commit : Option String
  last_prompt : Option String
deriving Repr, DecidableEq

/-- The dataclass defaults of `OrchestrationState` (`src/state.py` lines 24-33);
`now`/`lease` stand for the `default_factory` timestamps. -/
def OrchestrationState.init (now lease : String) : OrchestrationState :=
  { workflow_name := "standard"
    step_index := 0
    iteration := 1
    expected_step := none
    status := "idle"
    last_update := now
    lease_expires_at := lease
    galph_commit := none
    ralph_commit := none
    last_prompt := none }

/-- The keyword arguments of `OrchestrationState.stamp` with their defaults. -/
structure StampArgs where
  expected_step : Option String := none
  status : Option String := none
  increment_step : Bool := false
  galph_commit : Option String := none
  ralph_commit : Option String := none
deriving Repr, DecidableEq

/-- `OrchestrationState.stamp` (`src/state.py` lines 75-96).  `expected_step`
and `status` are guarded by `is not None`; `galph_commit`/`ralph_commit` by
Python truthiness (non-`None` and non-empty); `increment_step` performs
`step_index += 1; iteration = step_index + 1`; the two timestamp fields are
regenerated unconditionally (modelled by the `now`/`lease` arguments). -/
def OrchestrationState.stamp (s : OrchestrationState) (a : StampArgs)
    (now lease : String) : OrchestrationState :=
  let s1 := match a.expected_step with
    | some e => { s with expected_step := some e }
    | none => s
  let s2 := match a.status with
    | some st => { s1 with status := st }
    | none => s1
  let s3 := if a.increment_step then
      { s2 with step_index := s2.step_index + 1, iteration := s2.step_index + 1 + 1 }
    else s2
  let s4 := match a.galph_commit with
    | some g => if g == "" then s3 else { s3 with galph_commit := some g }
    | none => s3
  let s5 := match a.ralph_commit with
    | some r => if r == "" then s4 else { s4 with ralph_commit := some r }
    | none => s4
  { s5 with last_update := now, lease_expires_at := lease }

/-! ### JSON model for the persisted state file

`OrchestrationState.write` dumps `self.__dict__` (ten scalar fields) and
`read` parses it back.  The documents this program itself writes are flat
JSON objects with null/bool/int/string values, so the model covers exactly
those; any document outside this shape (missing file, unreadable file,
malformed JSON) is represented by `none`, the case the source handles with
`except Exception: return OrchestrationState()`. -/

/-- A scalar JSON value. -/
inductive JValue where
  | null
  | bool (b : Bool)
  | int (n : Int)
  | str (s : String)
deriving Repr, DecidableEq

/-- A flat JSON object, as produced by `json.load` on the state file. -/
abbrev JDoc := List (String × JValue)

/-- `data.get(key)`: dictionary lookup.  `json.load` keeps the last of
duplicate keys, hence the reversed search. -/
def jget (data : JDoc) (key : String) : Option JValue :=
  (data.reverse.find? (fun p => p.1 == key)).map (fun p => p.2)

/-- Python `str()` on a scalar JSON value. -/
def pyStr : JValue → String
  | .null => "None"
  | .bool b => if b then "True" else "False"
  | .int n => toString n
  | .str s => s

/-- Python `int()` on a scalar JSON value: ints pass through, bools are 0/1,
numeric strings are parsed (else `ValueError`), `None` is a `TypeError`. -/
def pyInt : JValue → Except PyExc Int
  | .int n => .ok n
  | .bool b => .ok (if b then 1 else 0)
  | .str s =>
      match pyParseInt (pyStrip s) with
      | some n => .ok n
      | none => .error (.valueError "invalid literal for int()")
  | .null => .error (.typeError "int() argument cannot be None")

/-- Reading a field that the dataclass stores as `Optional[str]`.  The source
stores `data.get(key)` unconverted; values that are neither null nor strings
would put a non-string into a `str | None` field, which this model reports as
an error rather than mistyping the state. -/
def toOptStrField : Option JValue → Except PyExc (Option String)
  | none => .ok none
  | some .null => .ok none
  | some (.str s) => .ok (some s)
  | some _ => .error (.other "non-string value in an Optional str field")

/-- `OrchestrationState.read` (`src/state.py` lines 35-58).  `doc = none`
models every failure of `open` + `json.load` (missing, unreadable or
malformed file), handled by `except Exception: return OrchestrationState()`.
Field recovery order and defaults follow the source:
`raw_iteration = int(get("iteration", 1))`,
`step_index = int(get("step_index", max(0, raw_iteration - 1)))`,
`iteration = int(get("iteration", step_index + 1))`. -/
def OrchestrationState.read (doc : Option JDoc) (now lease : String) :
    Except PyExc OrchestrationState :=
  match doc with
  | none => .ok (OrchestrationState.init now lease)
  | some data => do
    let raw_iteration ← pyInt ((jget data "iteration").getD (.int 1))
    let step_index ← pyInt ((jget data "step_index").getD (.int (max 0 (raw_iteration - 1))))
    let iteration ← pyInt ((jget data "iteration").getD (.int (step_index + 1)))
    let expected_step ← toOptStrField (jget data "expected_step")
    let galph_commit ← toOptStrField (jget data "galph_commit")
    let ralph_commit ← toOptStrField (jget data "ralph_commit")
    let last_prompt ← toOptStrField (jget data "last_prompt")
    pure
      { workflow_name := pyStr ((jget data "workflow_name").getD (.str "standard"))
        step_index := step_index
        iteration := iteration
        expected_step := expected_step
        status := pyStr ((jget data "status").getD (.str "idle"))
        last_update := pyStr ((jget data "last_update").getD (.str now))
        lease_expires_at := pyStr ((jget data "lease_expires_at").getD (.str lease))
        galph_commit := galph_commit
        ralph_commit := ralph_commit
        last_prompt := last_prompt }

/-- Helper: an optional string as the JSON value `write` serializes. -/
def optJ : Option String → JValue
  | none => .null
  | some s => .str s

/-- The JSON document `OrchestrationState.write` serializes
(`json.dump(self.__dict__, ...)`, `src/state.py` lines 60-67); the
temp-file-plus-atomic-rename placement is filesystem behaviour outside the
model. -/
def OrchestrationState.write_data (s : OrchestrationState) : JDoc :=
  [("workflow_name", .str s.workflow_name),
   ("step_index", .int s.step_index),
   ("iteration", .int s.iteration),
   ("expected_step", optJ s.expected_step),
   ("status", .str s.status),
   ("last_update", .str s.last_update),
   ("lease_expires_at", .str s.lease_expires_at),
   ("galph_commit", optJ s.galph_commit),
   ("ralph_commit", optJ s.ralph_commit),
   ("last_prompt", optJ s.last_prompt)]

/-! ### Workflows (`src/workflows.py`) -/

/-- `WorkflowStep` from `src/workflows.py`. -/
structure WorkflowStep where
  name : String
  prompt : String
deriving Repr, DecidableEq

/-- `Workflow` from `src/workflows.py`. -/
structure Workflow where
  name : String
  steps : List WorkflowStep
  cycle_len : Int
  review_every_n_cycles : Option Int := none
  review_prompt : Option String := none
deriving Repr, DecidableEq

/-- `get_workflow` (`src/workflows.py` lines 21-40).  For `review_cadence`
the source stores `review_every_n_cycles or 0`, i.e. `0` when the argument is
`None` or `0`. -/
def get_workflow (name : String) (review_every_n_cycles : Option Int) :
    Except PyExc Workflow :=
  if name == "standard" then
    .ok { name := "standard"
          steps := [⟨"supervisor", "supervisor.md"⟩, ⟨"main", "main.md"⟩]
          cycle_len := 2 }
  else if name == "review_cadence" then
    .ok { name := "review_cadence"
          steps := [⟨"supervisor", "supervisor.md"⟩, ⟨"main", "main.md"⟩]
          cycle_len := 2
          review_every_n_cycles := some (review_every_n_cycles.getD 0)
          review_prompt := some "reviewer.md" }
  else .error (.valueError "Unknown workflow")

/-- `resolve_step` (`src/workflows.py` lines 43-50).  The review override
fires when `review_every_n_cycles` is truthy and positive, the cycle index
satisfies `(cycle_index + 1) % n == 0`, and `review_prompt` is truthy
(non-empty); otherwise the base step `steps[step_index % cycle_len]` is
returned.  A non-positive `cycle_len` (division by zero in Python) and an
out-of-range base index (IndexError) are `none`. -/
def resolve_step (w : Workflow) (step_index : Int) : Option WorkflowStep :=
  if w.cycle_len ≤ 0 then none
  else
    let base_index := step_index % w.cycle_len
    let cycle_index := step_index / w.cycle_len
    let review : Option WorkflowStep :=
      match w.review_every_n_cycles, w.review_prompt with
      | some n, some r =>
          if 0 < n ∧ (cycle_index + 1) % n = 0 ∧ r ≠ "" then
            some ⟨"reviewer", r⟩
          else none
      | _, _ => none
    match review with
    | some st => some st
    | none => w.steps[base_index.toNat]?

/-! ### POSIX path helpers used by the router (`pathlib.PurePosixPath` fragment)

The router manipulates prompt tokens as POSIX paths: component
normalization (dropping empty and `.` components), `name`, `parent`,
`suffix`/`with_suffix` and the `/` join. -/

/-- The normalized components of a path string (pathlib drops empty and `.`
entries). -/
def pyParts (p : String) : List String :=
  (pySplitChar p (fun c => c == '/')).filter (fun q => !(q == "") && !(q == "."))

/-- Whether a path string is absolute. -/
def pyIsAbs (p : String) : Bool :=
  match p.toList with
  | '/' :: _ => true
  | _ => false

/-- Rendering a path from its components (`str()` of a pathlib path):
the empty relative path prints as `"."`, the empty absolute path as `"/"`. -/
def pyPathStr (abs : Bool) (parts : List String) : String :=
  if parts.isEmpty then (if abs then "/" else ".")
  else (if abs then "/" else "") ++ String.intercalate "/" parts

/-- `Path(p).name`: the final component, `""` for the root or empty path. -/
def pyName (p : String) : String := (pyParts p).getLastD ""

/-- `Path(p).parent` as a string. -/
def pyParent (p : String) : String :=
  pyPathStr (pyIsAbs p) (pyParts p).dropLast

/-- `Path(a) / b`: an absolute `b` wins, otherwise components concatenate. -/
def pyJoin (a b : String) : String :=
  if pyIsAbs b then b
  else pyPathStr (pyIsAbs a) (pyParts a ++ pyParts b)

/-- The index of the last `.` in a file name, if any. -/
def lastDotIdx (name : String) : Option Nat :=
  ((List.range name.length).filter
    (fun i => name.toList[i]? == some '.')).getLast?

/-- `Path(name).suffix` for a single component: the text from the last dot,
provided that dot is neither the first nor the last character. -/
def pySuffix (name : String) : String :=
  match lastDotIdx name with
  | some i => if 0 < i ∧ i < name.length - 1 then String.mk (name.toList.drop i) else ""
  | none => ""

/-- `_normalize_prompt_token` (`src/router.py` lines 41-45): parse the token
as a path, force the `.md` suffix with `with_suffix` when absent, render as
POSIX.  (Tokens whose final component is empty make pathlib raise; the model
appends `.md` there, a case no theorem exercises.) -/
def normalize_prompt_token (token : String) : String :=
  let abs := pyIsAbs token
  let parts := pyParts token
  match parts.getLast? with
  | none => pyPathStr abs [".md"]
  | some name =>
    let sfx := pySuffix name
    if sfx == ".md" then pyPathStr abs parts
    else
      let stem := String.mk (name.toList.take (name.length - sfx.length))
      pyPathStr abs (parts.dropLast ++ [stem ++ ".md"])

/-- `_normalize_allowlist` (`src/router.py` lines 48-49) as a normalized
list (set membership is by `List.contains`). -/
def normalize_allowlist (allowlist : List String) : List String :=
  allowlist.map normalize_prompt_token

/-- `resolve_prompt_path` (`src/router.py` lines 52-59): absolute tokens are
kept; tokens already prefixed with the prompts directory's name are rebased
on its parent; everything else is joined under the prompts directory. -/
def resolve_prompt_path (token : String) (prompts_dir : String) : String :=
  let normalized := normalize_prompt_token token
  if pyIsAbs normalized then normalized
  else
    let parts := pyParts normalized
    if !parts.isEmpty && !(pyName prompts_dir == "") &&
        parts.head? == some (pyName prompts_dir) then
      pyJoin (pyParent prompts_dir) normalized
    else pyJoin prompts_dir normalized

/-! ### Router (`src/router.py`) -/

/-- `RouterDecision` from `src/router.py`. -/
structure RouterDecision where
  selected_prompt : String
  source : String
  reason : String
deriving Repr, DecidableEq

/-- `normalize_router_mode` (`src/router.py` lines 21-38): `None` or empty
means `router_default`; otherwise strip, lowercase and resolve through the
alias table; anything else is a `ValueError`. -/
def normalize_router_mode (value : Option String) : Except PyExc String :=
  match value with
  | none => .ok "router_default"
  | some v =>
    if v == "" then .ok "router_default"
    else
      let normalized := pyLower (pyStrip v)
      if ["default", "router", "router_default"].contains normalized then
        .ok "router_default"
      else if ["router-first", "router_first", "first"].contains normalized then
        .ok "router_first"
      else if ["router-only", "router_only", "only"].contains normalized then
        .ok "router_only"
      else .error (.valueError "Unsupported router mode")

/-- `parse_router_output` (`src/router.py` lines 128-134): keep the stripped
non-blank lines; exactly one must remain. -/
def parse_router_output (raw : String) : Except PyExc String :=
  let lines := ((pySplitChar raw (fun c => c == '\n' || c == '\r')).map pyStrip).filter
    (fun l => !(l == ""))
  match lines with
  | [] => .error (.valueError "Router output is empty; expected a single prompt name/path.")
  | [l] => .ok l
  | _ => .error (.valueError "Router output must be a single non-empty line.")

/-- `select_prompt_with_mode` (`src/router.py` lines 161-215), the
actor-map router.  Its two helpers `apply_router_override` and
`deterministic_route` read the legacy `expected_actor` state schema (absent
from `src/state.py`), so here they enter as function arguments, already
applied to the state, prompt map, allowlist and prompts directory of the
call site; the mode dispatch itself — including the `router_only` guard
`if not router_output: raise ValueError(...)` — is modelled exactly. -/
def select_prompt_with_mode (router_mode : Option String)
    (router_output : Option String)
    (apply_override : String → Except PyExc RouterDecision)
    (det_route : Unit → Except PyExc RouterDecision) :
    Except PyExc RouterDecision :=
  match normalize_router_mode router_mode with
  | .error e => .error e
  | .ok mode =>
    if mode == "router_only" then
      match router_output with
      | none => .error (.valueError "router_only mode requires router prompt output.")
      | some s =>
        if s == "" then
          .error (.valueError "router_only mode requires router prompt output.")
        else apply_override s
    else if mode == "router_first" then
      match router_output with
      | some s => if s == "" then det_route () else apply_override s
      | none => det_route ()
    else
      match det_route () with
      | .error e => .error e
      | .ok decision =>
        match router_output with
        | some s => if s == "" then .ok decision else apply_override s
        | none => .ok decision

/-! ### Workflow-based prompt selection

`src/runner.py` calls a workflow-table-based `select_prompt_with_mode`
with signature `(state, review_every_n_cycles, allowlist=..., prompts_dir=...,
router_mode=..., router_output=...)`.  That implementation is not among the
source files (only its caller `runner.select_prompt` and its tests are), so
it is modelled from the spec here (`selectPromptWithMode` and its two
halves). -/

/-- Modelled from the spec: the deterministic half of the workflow-based
`select_prompt_with_mode` (spec section 4.1), whose implementation is
missing from `src/` (only its caller `runner.select_prompt` and the
orchestrator tests are present).  The step comes from
`resolve_step(get_workflow(state.workflow_name), step_index)`; the
normalized prompt token must pass the allowlist when one is given
(ValueError otherwise) and must resolve to an existing file under
`prompts_dir` (NotFoundError otherwise); `files` is the set of existing
prompt paths. -/
def deterministicWorkflowRoute (state : OrchestrationState)
    (review_every_n_cycles : Int) (allowlist : Option (List String))
    (prompts_dir : String) (files : List String) :
    Except PyExc RouterDecision :=
  match get_workflow state.workflow_name (some review_every_n_cycles) with
  | .error e => .error e
  | .ok wf =>
    match resolve_step wf state.step_index with
    | none => .error (.valueError "workflow step unresolvable")
    | some step =>
      let candidate_norm := normalize_prompt_token step.prompt
      let allowed := match allowlist with
        | some al => (normalize_allowlist al).contains candidate_norm
        | none => true
      if !allowed then .error (.valueError "Prompt not in allowlist")
      else
        let prompt_path := resolve_prompt_path step.prompt prompts_dir
        if !(files.contains prompt_path) then
          .error (.fileNotFound "Prompt file not found")
        else .ok { selected_prompt := candidate_norm, source := "workflow", reason := "workflow" }

/-- Modelled from the spec: the router-override half of the workflow-based
`select_prompt_with_mode` (spec section 4.1), missing from `src/` like the
rest of that router.  The raw router output is parsed to a single line
(`parse_router_output` from `src/router.py`), validated against the
allowlist and resolved to an existing file. -/
def applyWorkflowRouterOverride (raw : String) (allowlist : Option (List String))
    (prompts_dir : String) (files : List String) :
    Except PyExc RouterDecision :=
  match parse_router_output raw with
  | .error e => .error e
  | .ok override =>
    let override_norm := normalize_prompt_token override
    let allowed := match allowlist with
      | some al => (normalize_allowlist al).contains override_norm
      | none => true
    if !allowed then .error (.valueError "Router override not in allowlist")
    else
      let prompt_path := resolve_prompt_path override prompts_dir
      if !(files.contains prompt_path) then
        .error (.fileNotFound "Router override prompt not found")
      else .ok { selected_prompt := override_norm, source := "router", reason := "router override" }

/-- Modelled from the spec: the workflow-based `select_prompt_with_mode`
called by `runner.select_prompt` (spec section 4.1; missing from `src/`).
`router_only` requires non-empty router output, `router_first` uses the
output when present and otherwise falls back to deterministic resolution,
and `router_default` computes the deterministic decision and overrides it
when output is present.  Mode strings go through `normalize_router_mode`
from `src/router.py`. -/
def selectPromptWithMode (state : OrchestrationState)
    (review_every_n_cycles : Int) (allowlist : Option (List String))
    (prompts_dir : String) (router_mode : Option String)
    (router_output : Option String) (files : List String) :
    Except PyExc RouterDecision :=
  match normalize_router_mode router_mode with
  | .error e => .error e
  | .ok mode =>
    if mode == "router_only" then
      match router_output with
      | none => .error (.valueError "router_only mode requires router prompt output.")
      | some s =>
        if s == "" then
          .error (.valueError "router_only mode requires router prompt output.")
        else applyWorkflowRouterOverride s allowlist prompts_dir files
    else if mode == "router_first" then
      match router_output with
      | some s =>
        if s == "" then
          deterministicWorkflowRoute state review_every_n_cycles allowlist prompts_dir files
        else applyWorkflowRouterOverride s allowlist prompts_dir files
      | none => deterministicWorkflowRoute state review_every_n_cycles allowlist prompts_dir files
    else
      match deterministicWorkflowRoute state review_every_n_cycles allowlist prompts_dir files with
      | .error e => .error e
      | .ok decision =>
        match router_output with
        | some s =>
          if s == "" then .ok decision
          else applyWorkflowRouterOverride s allowlist prompts_dir files
        | none => .ok decision

/-! ### Turn engine (`src/runner.py`) -/

/-- `RouterContext` from `src/runner.py`. -/
structure RouterContext where
  prompts_dir : String
  allowlist : Option (List String)
  review_every_n_cycles : Int
  router_mode : Option String := none
  router_output : Option String := none
  use_router : Bool := false
deriving Repr, DecidableEq

/-- `PromptSelection` from `src/runner.py`. -/
structure PromptSelection where
  prompt_path : String
  selected_prompt : String
  decision : RouterDecision
deriving Repr, DecidableEq

/-- `select_prompt` (`src/runner.py` lines 255-286): with the router
disabled the mode dispatch runs with `router_output=None`, otherwise with
the context's router output (the `log_router_decision` call is
logging-only); either way the decision's prompt token is resolved to a path
under the prompts directory. -/
def select_prompt (state : OrchestrationState) (ctx : RouterContext)
    (files : List String) : Except PyExc PromptSelection :=
  if !ctx.use_router then
    match selectPromptWithMode state ctx.review_every_n_cycles ctx.allowlist
        ctx.prompts_dir ctx.router_mode none files with
    | .error e => .error e
    | .ok d =>
      .ok { prompt_path := resolve_prompt_path d.selected_prompt ctx.prompts_dir
            selected_prompt := d.selected_prompt, decision := d }
  else
    match selectPromptWithMode state ctx.review_every_n_cycles ctx.allowlist
        ctx.prompts_dir ctx.router_mode ctx.router_output files with
    | .error e => .error e
    | .ok d =>
      .ok { prompt_path := resolve_prompt_path d.selected_prompt ctx.prompts_dir
            selected_prompt := d.selected_prompt, decision := d }

deriving instance DecidableEq for Except

/-- The outcome of `run_turn`: the state as mutated so far (the Python code
mutates the shared state object in place, so mutations made before an
exception stay visible), the prompt names passed to the executor (one entry
per invocation, recording `selected_prompt`; the executor receives the
resolved `prompt_path`), and either the raised exception or
`(returncode, selected_prompt)` of the `TurnResult`. -/
structure TurnOutcome where
  state : OrchestrationState
  executed : List String
  result : Except PyExc (Int × String)
deriving Repr, DecidableEq

/-- `run_turn` (`src/runner.py` lines 289-306): select the prompt, record it
as `state.expected_step`, invoke the executor on the resolved path, and
(router-enabled contexts only) record `state.last_prompt`. -/
def run_turn (state : OrchestrationState) (ctx : RouterContext)
    (executor : String → Except PyExc Int) (files : List String) : TurnOutcome :=
  match select_prompt state ctx files with
  | .error e => { state := state, executed := [], result := .error e }
  | .ok sel =>
    let state1 := { state with expected_step := some sel.selected_prompt }
    match executor sel.prompt_path with
    | .error e => { state := state1, executed := [sel.selected_prompt], result := .error e }
    | .ok rc =>
      let state2 := if ctx.use_router then { state1 with last_prompt := some sel.selected_prompt }
        else state1
      { state := state2, executed := [sel.selected_prompt], result := .ok (rc, sel.selected_prompt) }

/-! ### Two-role composition (`src/orchestrator.py`) -/

/-- The observable outcome of `run_combined_iteration`: return code, final
state, the states handed to `state_writer` in order, and the prompts the
executors were invoked on in order. -/
structure CombinedOutcome where
  rc : Int
  state : OrchestrationState
  writes : List OrchestrationState
  executed : List String
deriving Repr, DecidableEq

/-- `run_combined_iteration` (`src/orchestrator.py` lines 252-310): set
`status="running"` and persist; run galph's turn — an exception stamps
`status="failed"` with `galph_commit=short_head()`, persists and returns 2,
and a non-zero return code stamps the same and propagates the code;
otherwise stamp `waiting-next` with `increment_step=True`, persist, set
`status="running"`, persist, and run ralph's turn with the symmetric failure
handling; on success stamp `complete` with `increment_step=True`, persist
and return 0.  `head` models `short_head()`, `now`/`lease` the regenerated
timestamps; the optional `post_turn` callback (used for auto-commit) is
side-effect-only and not modelled. -/
def run_combined_iteration (state : OrchestrationState)
    (galph_ctx ralph_ctx : RouterContext)
    (galph_executor ralph_executor : String → Except PyExc Int)
    (files : List String) (head now lease : String) : CombinedOutcome :=
  let s1 := { state with status := "running" }
  let g := run_turn s1 galph_ctx galph_executor files
  match g.result with
  | .error _ =>
    let sf := g.state.stamp { status := some "failed", galph_commit := some head } now lease
    { rc := 2, state := sf, writes := [s1, sf], executed := g.executed }
  | .ok (grc, _) =>
    if grc ≠ 0 then
      let sf := g.state.stamp { status := some "failed", galph_commit := some head } now lease
      { rc := grc, state := sf, writes := [s1, sf], executed := g.executed }
    else
      let s3 := g.state.stamp
        { status := some "waiting-next", increment_step := true, galph_commit := some head }
        now lease
      let s4 := { s3 with status := "running" }
      let r := run_turn s4 ralph_ctx ralph_executor files
      match r.result with
      | .error _ =>
        let sf := r.state.stamp { status := some "failed", ralph_commit := some head } now lease
        { rc := 2, state := sf, writes := [s1, s3, s4, sf], executed := g.executed ++ r.executed }
      | .ok (rrc, _) =>
        if rrc ≠ 0 then
          let sf := r.state.stamp { status := some "failed", ralph_commit := some head } now lease
          { rc := rrc, state := sf, writes := [s1, s3, s4, sf], executed := g.executed ++ r.executed }
        else
          let s6 := r.state.stamp
            { status := some "complete", increment_step := true, ralph_commit := some head }
            now lease
          { rc := 0, state := s6, writes := [s1, s3, s4, s6], executed := g.executed ++ r.executed }

/-! ### Process runner (`tee_run`, `src/runner.py` lines 58-236)

`tee_run` multiplexes child output with a readiness-polling loop.  The
operating-system side (select, wall-clock time, signals) is abstracted into
a trace of loop events; what the model keeps faithfully is the write
discipline of each event handler — which sink(s) each chunk or message is
appended to, in which order — the `timed_out` latch and
terminate/wait/kill sequence of `_check_timeout`, and the final
`return proc.returncode if proc.returncode is not None else (124 if
timed_out else 0)` expression.  Chunks appear post-`decode("utf-8",
errors="replace")`, i.e. as the strings written to the sinks. -/

/-- One observed iteration effect of the tee loop. -/
inductive RunEvent where
  /-- a chunk read from the child's stdout (or the PTY master), handled by
  `_write_chunk`: appended to the process stdout sink and the log -/
  | out (chunk : String)
  /-- pipe mode only: a chunk read from the child's stderr, appended to the
  process stderr sink and the log -/
  | err (chunk : String)
  /-- `_emit_heartbeat` fired (its silence/interval guards held), with the
  elapsed seconds it reports -/
  | beat (elapsed : Int)
  /-- `_check_timeout` found elapsed wall time past the configured timeout -/
  | timeoutHit (elapsed : Int)
  /-- the child exited on its own and `poll()`/`wait()` collected `rc` -/
  | exitEv (rc : Int)
deriving Repr, DecidableEq

/-- The configuration `tee_run` reads from its arguments and environment. -/
structure TeeConfig where
  cmd : List String
  prompt_label : String
  log_path : String
  /-- `heartbeat_secs > 0` -/
  heartbeat_on : Bool
  /-- `timeout_secs > 0` -/
  timeout_on : Bool
  /-- whether the child exits during `proc.wait(timeout=5)` after
  `proc.terminate()` (return code `-15`); otherwise `wait` times out and
  `proc.kill()` ends it with `-9`, collected by a later `poll()` -/
  child_dies_on_term : Bool
deriving Repr, DecidableEq

/-- The sinks and bookkeeping of one `tee_run` invocation.  `proc = none`
while the child runs un-reaped; `some rc` once a `poll()`/`wait()` collected
its return code. -/
structure TeeState where
  termOut : String
  termErr : String
  log : String
  timed_out : Bool
  proc : Option Int
deriving Repr, DecidableEq

/-- The command-line header `tee_run` writes to the log before launching. -/
def teeHeader (cfg : TeeConfig) : String :=
  "$ " ++ String.intercalate " " cfg.cmd ++ "\n"

/-- The `[runner] start ...` line written when heartbeats are enabled. -/
def teeStartMsg (cfg : TeeConfig) : String :=
  "[runner] start prompt=" ++ cfg.prompt_label ++ " log=" ++ cfg.log_path ++ "\n"

/-- The `[runner] still running ...` heartbeat line. -/
def teeBeatMsg (cfg : TeeConfig) (elapsed : Int) : String :=
  "[runner] still running (" ++ toString elapsed ++ "s elapsed) prompt=" ++
    cfg.prompt_label ++ " log=" ++ cfg.log_path ++ "\n"

/-- The `[runner] timeout ...; terminating` line. -/
def teeTimeoutMsg (cfg : TeeConfig) (elapsed : Int) : String :=
  "[runner] timeout (" ++ toString elapsed ++ "s elapsed) prompt=" ++
    cfg.prompt_label ++ " log=" ++ cfg.log_path ++ "; terminating\n"

/-- One loop-event handler of `tee_run`.  `.out` is `_write_chunk` (stdout
sink + log, flushed); `.err` is the stderr branch of the pipe loop (stderr
sink + log); `.beat` is `_emit_heartbeat` (stdout sink + log, only when
heartbeats are enabled); `.timeoutHit` is `_check_timeout` (no-op when
timeouts are off or the latch is already set; otherwise it writes the
message to stdout sink + log, sets `timed_out`, and terminates the child —
`wait(5)` collecting `-15`, or `kill` leading to `-9`); `.exitEv` records a
natural child exit. -/
def tee_step (cfg : TeeConfig) (s : TeeState) (e : RunEvent) : TeeState :=
  match e with
  | .out c => { s with termOut := s.termOut ++ c, log := s.log ++ c }
  | .err c => { s with termErr := s.termErr ++ c, log := s.log ++ c }
  | .beat elapsed =>
    if cfg.heartbeat_on then
      let msg := teeBeatMsg cfg elapsed
      { s with termOut := s.termOut ++ msg, log := s.log ++ msg }
    else s
  | .timeoutHit elapsed =>
    if cfg.timeout_on ∧ s.timed_out = false ∧ s.proc = none then
      let msg := teeTimeoutMsg cfg elapsed
      { s with termOut := s.termOut ++ msg, log := s.log ++ msg,
               timed_out := true,
               proc := some (if cfg.child_dies_on_term then -15 else -9) }
    else s
  | .exitEv rc => if s.proc = none then { s with proc := some rc } else s

/-- A whole `tee_run` invocation over a trace of loop events: write the
command-line header to the log, write the start message to stdout and log
when heartbeats are enabled, then process the events. -/
def tee_run_model (cfg : TeeConfig) (events : List RunEvent) : TeeState :=
  let s0 : TeeState :=
    { termOut := "", termErr := "", log := teeHeader cfg, timed_out := false, proc := none }
  let s1 := if cfg.heartbeat_on then
      let m := teeStartMsg cfg
      { s0 with termOut := s0.termOut ++ m, log := s0.log ++ m }
    else s0
  events.foldl (tee_step cfg) s1

/-- The final return expression of `tee_run` (`src/runner.py` lines 188 and
234): `proc.returncode if proc.returncode is not None else
(124 if timed_out else 0)`.  Note every `break` of the read loops is guarded
by `proc.poll() is not None`, so at the actual return sites `proc` has been
reaped. -/
def tee_return_expr (s : TeeState) : Int :=
  match s.proc with
  | some rc => rc
  | none => if s.timed_out then 124 else 0

/-- `true` when a trace contains no stderr chunk. -/
def noErrEvents : List RunEvent → Bool
  | [] => true
  | .err _ :: _ => false
  | _ :: es => noErrEvents es

/-! ### Helper lemmas -/

/-- Field-wise characterization of `stamp`. -/
theorem stamp_spec (s : OrchestrationState) (a : StampArgs) (now lease : String) :
    s.stamp a now lease =
      { workflow_name := s.workflow_name
        step_index := if a.increment_step then s.step_index + 1 else s.step_index
        iteration := if a.increment_step then s.step_index + 1 + 1 else s.iteration
        expected_step := match a.expected_step with
          | some e => some e
          | none => s.expected_step
        status := match a.status with
          | some st => st
          | none => s.status
        last_update := now
        lease_expires_at := lease
        galph_commit := match a.galph_commit with
          | some g => if g == "" then s.galph_commit else some g
          | none => s.galph_commit
        ralph_commit := match a.ralph_commit with
          | some r => if r == "" then s.ralph_commit else some r
          | none => s.ralph_commit
        last_prompt := s.last_prompt } := by
  rcases a with ⟨es, st, inc, gc, rc⟩
  cases es <;> cases st <;> cases inc <;> cases gc <;> cases rc <;>
    simp only [OrchestrationState.stamp] <;> split_ifs <;> rfl

/-- Equality of two states on every field except the regenerated timestamp
fields `last_update` and `lease_expires_at`. -/
def eqExceptTimestamps (a b : OrchestrationState) : Prop :=
  a.workflow_name = b.workflow_name ∧ a.step_index = b.step_index ∧
  a.iteration = b.iteration ∧ a.expected_step = b.expected_step ∧
  a.status = b.status ∧ a.galph_commit = b.galph_commit ∧
  a.ralph_commit = b.ralph_commit ∧ a.last_prompt = b.last_prompt

/-! ### C3 -/

/-- C3: for every workflow with `cycle_len = 2` and a positive review
cadence `N` and a designated (non-empty) review prompt, `resolve_step`
returns the review step at every index of a cycle with `(cycle_index + 1)`
a multiple of `N`, and the base step `steps[step_index % 2]` otherwise; with
the `review_cadence` workflow at `N = 2`, indices 2 and 3 resolve to
`reviewer.md` and indices 0, 1, 4, 5 to their base prompts. -/
theorem c3_resolve_step_review_cadence :
    (∀ (w : Workflow) (N : Int) (r : String) (i : Int),
      w.cycle_len = 2 → w.review_every_n_cycles = some N → 0 < N →
      w.review_prompt = some r → r ≠ "" →
      resolve_step w i =
        (if (i / 2 + 1) % N = 0 then some ⟨"reviewer", r⟩
         else w.steps[(i % 2).toNat]?)) ∧
    (get_workflow "review_cadence" (some 2)).map (fun wf =>
        [resolve_step wf 2, resolve_step wf 3, resolve_step wf 0,
         resolve_step wf 1, resolve_step wf 4, resolve_step wf 5]) =
      .ok [some ⟨"reviewer", "reviewer.md"⟩, some ⟨"reviewer", "reviewer.md"⟩,
           some ⟨"supervisor", "supervisor.md"⟩, some ⟨"main", "main.md"⟩,
           some ⟨"supervisor", "supervisor.md"⟩, some ⟨"main", "main.md"⟩] := by
  constructor
  · intro w N r i hlen hrev hpos hprompt hne
    unfold resolve_step
    rw [hlen, hrev, hprompt]
    have h2 : ¬ ((2 : Int) ≤ 0) := by decide
    rw [if_neg h2]
    by_cases hmod : (i / 2 + 1) % N = 0
    · have hd : N ∣ (i / 2 + 1) := Int.dvd_of_emod_eq_zero hmod
      simp [hpos, hne, hd]
    · have hd : ¬ N ∣ (i / 2 + 1) := fun h => hmod (Int.emod_eq_zero_of_dvd h)
      simp [hd]
  · rfl

/-- Witness for C3, at the `review_cadence` workflow with `N = 2` and step
index 2 (second cycle, review hit). -/
theorem c3_resolve_step_review_cadence_witness :
    resolve_step
      { name := "review_cadence"
        steps := [⟨"supervisor", "supervisor.md"⟩, ⟨"main", "main.md"⟩]
        cycle_len := 2
        review_every_n_cycles := some 2
        review_prompt := some "reviewer.md" } (2 : Int) =
      some ⟨"reviewer", "reviewer.md"⟩ := by
  have h := c3_resolve_step_review_cadence.1
    { name := "review_cadence"
      steps := [⟨"supervisor", "supervisor.md"⟩, ⟨"main", "main.md"⟩]
      cycle_len := 2
      review_every_n_cycles := some 2
      review_prompt := some "reviewer.md" } 2 "reviewer.md" 2
    rfl rfl (by decide) rfl (by decide)
  simpa using h

/-! ### C4 -/

/-- C4: with `increment_step=False`, `stamp` leaves `step_index` and
`iteration` unchanged (they move only through `increment_step=True`), and
re-applying `stamp` with identical arguments yields the same state as one
application on every field except the regenerated timestamps. -/
theorem c4_stamp_idempotent_no_increment :
    ∀ (s : OrchestrationState) (a : StampArgs) (n1 l1 n2 l2 : String),
      a.increment_step = false →
      ((s.stamp a n1 l1).step_index = s.step_index ∧
       (s.stamp a n1 l1).iteration = s.iteration) ∧
      eqExceptTimestamps ((s.stamp a n1 l1).stamp a n2 l2) (s.stamp a n1 l1) := by
  intro s a n1 l1 n2 l2 h
  rcases a with ⟨es, st, inc, gc, rc⟩
  simp only at h
  subst h
  refine ⟨⟨by simp [stamp_spec], by simp [stamp_spec]⟩, ?_⟩
  cases es <;> cases st <;> cases gc <;> cases rc <;>
    simp [stamp_spec, eqExceptTimestamps] <;> split_ifs <;> simp_all

/-- Witness for C4 at a concrete state and argument set. -/
theorem c4_stamp_idempotent_no_increment_witness :
    (((OrchestrationState.init "a" "b").stamp
        { status := some "failed", galph_commit := some "abc1234" } "t1" "t2").step_index =
      (OrchestrationState.init "a" "b").step_index ∧
     ((OrchestrationState.init "a" "b").stamp
        { status := some "failed", galph_commit := some "abc1234" } "t1" "t2").iteration =
      (OrchestrationState.init "a" "b").iteration) ∧
    eqExceptTimestamps
      (((OrchestrationState.init "a" "b").stamp
          { status := some "failed", galph_commit := some "abc1234" } "t1" "t2").stamp
        { status := some "failed", galph_commit := some "abc1234" } "t3" "t4")
      ((OrchestrationState.init "a" "b").stamp
        { status := some "failed", galph_commit := some "abc1234" } "t1" "t2") :=
  c4_stamp_idempotent_no_increment (OrchestrationState.init "a" "b")
    { status := some "failed", galph_commit := some "abc1234" } "t1" "t2" "t3" "t4" rfl

/-! ### C5 -/

/-- A state with `iteration ≠ step_index + 1`, obtainable from `read` on the
well-formed document with both fields present. -/
def c5_state : OrchestrationState :=
  { workflow_name := "standard"
    step_index := 0
    iteration := 5
    expected_step := none
    status := "idle"
    last_update := "t"
    lease_expires_at := "t"
    galph_commit := none
    ralph_commit := none
    last_prompt := none }

/-- Counterexample to C5 as stated: `stamp` with `increment_step=False`
(here `stamp(status="failed")`) does not establish
`iteration == step_index + 1` on a state that does not already satisfy it —
and such a state is reachable: `read` produces it from the document
`{"step_index": 0, "iteration": 5}`. -/
theorem c5_stamp_iteration_invariant_counterexample :
    OrchestrationState.read
        (some [("step_index", JValue.int 0), ("iteration", JValue.int 5)]) "t" "t" =
      .ok c5_state ∧
    (c5_state.stamp { status := some "failed" } "t2" "l2").iteration ≠
      (c5_state.stamp { status := some "failed" } "t2" "l2").step_index + 1 := by
  exact ⟨rfl, by decide⟩

/-- C5 (amended): after `stamp` with `increment_step=True` the invariant
`iteration == step_index + 1` always holds, and `stamp` with
`increment_step=False` preserves the invariant when the input state already
satisfies it; it is not established by every `stamp` call on every state. -/
theorem c5_stamp_iteration_invariant_amended :
    ∀ (s : OrchestrationState) (a : StampArgs) (now lease : String),
      a.increment_step = true ∨ s.iteration = s.step_index + 1 →
      (s.stamp a now lease).iteration = (s.stamp a now lease).step_index + 1 := by
  intro s a now lease h
  rw [stamp_spec]
  cases hinc : a.increment_step
  · rcases h with h | h
    · exact absurd h (by simp [hinc])
    · simpa using h
  · simp

/-- Witness for C5 (amended): a `stamp` with `increment_step=True` on the
counterexample state re-establishes the invariant. -/
theorem c5_stamp_iteration_invariant_amended_witness :
    (c5_state.stamp { status := some "waiting-next", increment_step := true }
        "t2" "l2").iteration =
      (c5_state.stamp { status := some "waiting-next", increment_step := true }
        "t2" "l2").step_index + 1 :=
  c5_stamp_iteration_invariant_amended c5_state
    { status := some "waiting-next", increment_step := true } "t2" "l2" (Or.inl rfl)

/-! ### C6 -/

/-- C6: in `router_only` mode (any mode string normalizing to it), an absent
or empty router output makes `select_prompt_with_mode` raise the
configuration `ValueError`, for every override validator and every
deterministic route — it never falls back to deterministic resolution. -/
theorem c6_router_only_requires_output :
    ∀ (router_mode : Option String) (router_output : Option String)
      (apply_override : String → Except PyExc RouterDecision)
      (det_route : Unit → Except PyExc RouterDecision),
      normalize_router_mode router_mode = .ok "router_only" →
      router_output = none ∨ router_output = some "" →
      select_prompt_with_mode router_mode router_output apply_override det_route =
        .error (.valueError "router_only mode requires router prompt output.") := by
  intro router_mode router_output apply_override det_route hmode hout
  unfold select_prompt_with_mode
  rw [hmode]
  rcases hout with h | h <;> subst h <;> rfl

/-- Witness for C6 at mode string `"router_only"` and absent output. -/
theorem c6_router_only_requires_output_witness :
    select_prompt_with_mode (some "router_only") none
        (fun _ => .ok ⟨"supervisor.md", "router", "override"⟩)
        (fun _ => .ok ⟨"main.md", "deterministic", "fallback"⟩) =
      .error (.valueError "router_only mode requires router prompt output.") :=
  c6_router_only_requires_output (some "router_only") none
    (fun _ => .ok ⟨"supervisor.md", "router", "override"⟩)
    (fun _ => .ok ⟨"main.md", "deterministic", "fallback"⟩) (by decide) (Or.inl rfl)

/-! ### C9 -/

/-- C9: reading back the document `write` serializes recovers the state
field-for-field (the timestamp fields are stored and recovered verbatim,
which the claim's "except possibly freshly-regenerated timestamps" allows). -/
theorem c9_state_write_read_roundtrip :
    ∀ (s : OrchestrationState) (now lease : String),
      OrchestrationState.read (some s.write_data) now lease = .ok s := by
  intro s now lease
  rcases s with ⟨wn, si, it, es, st, lu, le, gc, rc, lp⟩
  cases es <;> cases gc <;> cases rc <;> cases lp <;> rfl

/-! ### C10 -/

/-- C10: `read` is total at the public interface — a missing, unreadable or
malformed state file (the `doc = none` case) raises nothing and yields the
default state `workflow_name="standard"`, `step_index=0`, `iteration=1`,
`status="idle"`; and on a document lacking `"step_index"` but carrying an
integer `"iteration"` `n` (with well-typed optional string fields), `read`
succeeds with `step_index = max 0 (n - 1)`. -/
theorem c10_read_total_and_step_derivation :
    (∀ now lease,
      OrchestrationState.read none now lease = .ok (OrchestrationState.init now lease) ∧
      (OrchestrationState.init now lease).workflow_name = "standard" ∧
      (OrchestrationState.init now lease).step_index = 0 ∧
      (OrchestrationState.init now lease).iteration = 1 ∧
      (OrchestrationState.init now lease).status = "idle") ∧
    (∀ (data : JDoc) (n : Int) (now lease : String)
       (es gc rc lp : Option String),
      jget data "step_index" = none →
      jget data "iteration" = some (.int n) →
      toOptStrField (jget data "expected_step") = .ok es →
      toOptStrField (jget data "galph_commit") = .ok gc →
      toOptStrField (jget data "ralph_commit") = .ok rc →
      toOptStrField (jget data "last_prompt") = .ok lp →
      ∃ s, OrchestrationState.read (some data) now lease = .ok s ∧
        s.step_index = max 0 (n - 1) ∧ s.iteration = n) := by
  constructor
  · intro now lease
    exact ⟨rfl, rfl, rfl, rfl, rfl⟩
  · intro data n now lease es gc rc lp hstep hiter hes hgc hrc hlp
    have hread : OrchestrationState.read (some data) now lease = .ok
        { workflow_name := pyStr ((jget data "workflow_name").getD (.str "standard"))
          step_index := max 0 (n - 1)
          iteration := n
          expected_step := es
          status := pyStr ((jget data "status").getD (.str "idle"))
          last_update := pyStr ((jget data "last_update").getD (.str now))
          lease_expires_at := pyStr ((jget data "lease_expires_at").getD (.str lease))
          galph_commit := gc
          ralph_commit := rc
          last_prompt := lp } := by
      simp only [OrchestrationState.read]
      rw [hiter, hstep, hes, hgc, hrc, hlp]
      rfl
    exact ⟨_, hread, rfl, rfl⟩

/-- Witness for C10 at the document `{"iteration": 5}`: the derived
`step_index` is `max 0 (5 - 1) = 4`. -/
theorem c10_read_total_and_step_derivation_witness :
    OrchestrationState.read none "n0" "l0" = .ok (OrchestrationState.init "n0" "l0") ∧
    ∃ s, OrchestrationState.read (some [("iteration", JValue.int 5)]) "n0" "l0" = .ok s ∧
      s.step_index = max 0 (5 - 1) ∧ s.iteration = 5 := by
  constructor
  · exact (c10_read_total_and_step_derivation.1 "n0" "l0").1
  · exact c10_read_total_and_step_derivation.2 [("iteration", JValue.int 5)] 5 "n0" "l0"
      none none none none rfl rfl rfl rfl rfl rfl

/-! ### C7 -/

/-- `s ++ "" = s` for strings. -/
theorem str_append_empty (s : String) : s ++ "" = s := by
  cases s with
  | mk l => exact congrArg String.mk (List.append_nil l)

/-- `"" ++ s = s` for strings. -/
theorem str_empty_append (s : String) : "" ++ s = s := rfl

/-- Associativity of string append. -/
theorem str_append_assoc (a b c : String) : a ++ b ++ c = a ++ (b ++ c) := by
  cases a with
  | mk la =>
    cases b with
    | mk lb =>
      cases c with
      | mk lc => exact congrArg String.mk (List.append_assoc la lb lc)

/-- Invariant of the tee loop: every handler except the stderr branch
appends the same text to the log as to the stdout sink, so
`log = header ++ termOut` is preserved across stderr-free traces. -/
theorem tee_fold_log (cfg : TeeConfig) :
    ∀ (events : List RunEvent) (s : TeeState), noErrEvents events = true →
      s.log = teeHeader cfg ++ s.termOut →
      (events.foldl (tee_step cfg) s).log =
        teeHeader cfg ++ (events.foldl (tee_step cfg) s).termOut := by
  intro events
  induction events with
  | nil => intro s _ hs; simpa using hs
  | cons e es ih =>
    intro s hne hs
    cases e with
    | out c =>
      refine ih _ (by simpa [noErrEvents] using hne) ?_
      simp [tee_step, hs, str_append_assoc]
    | err c => simp [noErrEvents] at hne
    | beat t =>
      refine ih _ (by simpa [noErrEvents] using hne) ?_
      by_cases hb : cfg.heartbeat_on <;> simp [tee_step, hb, hs, str_append_assoc]
    | timeoutHit t =>
      refine ih _ (by simpa [noErrEvents] using hne) ?_
      by_cases hc : cfg.timeout_on ∧ s.timed_out = false ∧ s.proc = none <;>
        simp [tee_step, hc, hs, str_append_assoc]
    | exitEv rc =>
      refine ih _ (by simpa [noErrEvents] using hne) ?_
      by_cases hp : s.proc = none <;> simp [tee_step, hp, hs]

/-- C7: over any stderr-free run (a command producing only stdout), the log
written by `tee_run` is exactly the injected command-line header followed by
the bytes written to the terminal stdout sink, in write order (heartbeat and
timeout messages included, since they go to both sinks). -/
theorem c7_tee_log_matches_stdout :
    ∀ (cfg : TeeConfig) (events : List RunEvent),
      noErrEvents events = true →
      (tee_run_model cfg events).log =
        teeHeader cfg ++ (tee_run_model cfg events).termOut := by
  intro cfg events h
  unfold tee_run_model
  refine tee_fold_log cfg events _ h ?_
  by_cases hb : cfg.heartbeat_on <;>
    simp [hb, str_append_empty, str_empty_append]

/-- The `tee_run` configuration of the C7 witness scenario. -/
def c7_cfg : TeeConfig :=
  { cmd := ["echo", "hello"]
    prompt_label := "main.md"
    log_path := "logs/run.log"
    heartbeat_on := false
    timeout_on := false
    child_dies_on_term := true }

/-- Witness for C7: the command emits exactly `"hello\n"` on stdout and
exits; the log equals the header line followed by the stdout bytes. -/
theorem c7_tee_log_matches_stdout_witness :
    noErrEvents [RunEvent.out "hello\n", RunEvent.exitEv 0] = true ∧
    (tee_run_model c7_cfg [RunEvent.out "hello\n", RunEvent.exitEv 0]).log =
      teeHeader c7_cfg ++
        (tee_run_model c7_cfg [RunEvent.out "hello\n", RunEvent.exitEv 0]).termOut :=
  ⟨rfl, c7_tee_log_matches_stdout c7_cfg [RunEvent.out "hello\n", RunEvent.exitEv 0] rfl⟩

/-! ### C8 -/

/-- The `tee_run` configuration of the C8 scenario: a timeout is configured
and the child dies to SIGTERM inside the `wait(timeout=5)` grace window. -/
def c8_cfg : TeeConfig :=
  { cmd := ["slow-agent"]
    prompt_label := "main.md"
    log_path := "logs/run.log"
    heartbeat_on := false
    timeout_on := true
    child_dies_on_term := true }

/-- Counterexample to C8 as stated: when the timeout fires and the child is
terminated gracefully, `wait(5)` collects the child's signal return code
`-15`, every later loop `break` is guarded by `poll() is not None`, and the
final expression returns that collected code — `-15`, not the distinguished
`124`-style code. -/
theorem c8_tee_timeout_counterexample :
    tee_return_expr (tee_run_model c8_cfg [RunEvent.timeoutHit 30]) = -15 ∧
    (tee_run_model c8_cfg [RunEvent.timeoutHit 30]).timed_out = true ∧
    ¬ tee_return_expr (tee_run_model c8_cfg [RunEvent.timeoutHit 30]) = 124 := by
  refine ⟨rfl, rfl, by decide⟩

/-- C8 (amended): on expiry `_check_timeout` latches `timed_out`, terminates
the child gracefully and, if it does not exit within the `wait(timeout=5)`
grace window, kills it forcibly (collected codes `-15` resp. `-9`); but the
value `tee_run` returns for the run is the collected child return code
whenever one exists — the `124` fallback applies only when no return code
was collected, which the `poll() is not None` loop-exit guards prevent. -/
theorem c8_tee_timeout_amended :
    ∀ (cfg : TeeConfig) (s : TeeState) (t : Int) (events : List RunEvent) (rc : Int),
      (cfg.timeout_on = true → s.timed_out = false → s.proc = none →
        (tee_step cfg s (.timeoutHit t)).timed_out = true ∧
        (tee_step cfg s (.timeoutHit t)).proc =
          some (if cfg.child_dies_on_term then -15 else -9)) ∧
      ((tee_run_model cfg events).proc = some rc →
        tee_return_expr (tee_run_model cfg events) = rc) := by
  intro cfg s t events rc
  constructor
  · intro hon hto hpr
    constructor <;> simp [tee_step, hon, hto, hpr]
  · intro h
    unfold tee_return_expr
    rw [h]

/-- Witness for C8 (amended), at the graceful-termination scenario: the
timeout event latches the flag, records `-15`, and the run returns `-15`. -/
theorem c8_tee_timeout_amended_witness :
    ((tee_step c8_cfg
        { termOut := "", termErr := "", log := "", timed_out := false, proc := none }
        (.timeoutHit 30)).timed_out = true ∧
      (tee_step c8_cfg
        { termOut := "", termErr := "", log := "", timed_out := false, proc := none }
        (.timeoutHit 30)).proc =
        some (if c8_cfg.child_dies_on_term then -15 else -9)) ∧
    tee_return_expr (tee_run_model c8_cfg [RunEvent.timeoutHit 30]) = -15 := by
  have h := c8_tee_timeout_amended c8_cfg
    { termOut := "", termErr := "", log := "", timed_out := false, proc := none }
    30 [RunEvent.timeoutHit 30] (-15)
  exact ⟨h.1 rfl rfl rfl, h.2 rfl⟩

/-! ### C1 and C2 -/

/-- `run_turn` never moves `step_index` (it only sets `expected_step` and,
with the router enabled, `last_prompt`). -/
theorem run_turn_state_step_index (s : OrchestrationState) (ctx : RouterContext)
    (ex : String → Except PyExc Int) (files : List String) :
    (run_turn s ctx ex files).state.step_index = s.step_index := by
  unfold run_turn
  rcases hs : select_prompt s ctx files with e | sel
  · rfl
  · dsimp only
    rcases hx : ex sel.prompt_path with e | rc
    · rfl
    · dsimp only
      cases hu : ctx.use_router <;> simp [hu]

/-- Abbreviation: role A's turn inside `run_combined_iteration` (run from
the state with `status="running"`). -/
def galphTurn (state : OrchestrationState) (gctx : RouterContext)
    (ge : String → Except PyExc Int) (files : List String) : TurnOutcome :=
  run_turn { state with status := "running" } gctx ge files

/-- Abbreviation: role B's turn inside `run_combined_iteration` (run from
role A's post-turn state after the `waiting-next` increment stamp and the
`status="running"` assignment). -/
def ralphTurn (state : OrchestrationState) (gctx rctx : RouterContext)
    (ge re : String → Except PyExc Int) (files : List String)
    (head now lease : String) : TurnOutcome :=
  run_turn
    { (galphTurn state gctx ge files).state.stamp
        { status := some "waiting-next", increment_step := true, galph_commit := some head }
        now lease with status := "running" }
    rctx re files

/-- The starting state of the C1 scenario:
`{workflow_name: "standard", step_index: 0}`. -/
def c1_state : OrchestrationState :=
  { workflow_name := "standard"
    step_index := 0
    iteration := 1
    expected_step := none
    status := "idle"
    last_update := "t0"
    lease_expires_at := "t0"
    galph_commit := none
    ralph_commit := none
    last_prompt := none }

/-- The router context of the C1 scenario: allowlist
`["supervisor.md", "main.md"]`, router disabled, default mode. -/
def c1_ctx : RouterContext :=
  { prompts_dir := "prompts"
    allowlist := some ["supervisor.md", "main.md"]
    review_every_n_cycles := 0
    router_mode := some "router_default"
    router_output := none
    use_router := false }

/-- The existing prompt files of the C1 scenario. -/
def c1_files : List String := ["prompts/supervisor.md", "prompts/main.md"]

/-- C1: from `{workflow_name: "standard", step_index: 0}` with allowlist
`["supervisor.md", "main.md"]` and two executors that always return 0,
`run_combined_iteration` executes the prompts `supervisor.md` then
`main.md` in that order and ends with `step_index = 2`,
`status = "complete"` (and return code 0). -/
theorem c1_run_combined_standard_success :
    ∀ (ge re : String → Except PyExc Int),
      (∀ p, ge p = .ok 0) → (∀ p, re p = .ok 0) →
      (run_combined_iteration c1_state c1_ctx c1_ctx ge re c1_files
          "abc1234" "t1" "t2").executed = ["supervisor.md", "main.md"] ∧
      (run_combined_iteration c1_state c1_ctx c1_ctx ge re c1_files
          "abc1234" "t1" "t2").state.step_index = 2 ∧
      (run_combined_iteration c1_state c1_ctx c1_ctx ge re c1_files
          "abc1234" "t1" "t2").state.status = "complete" ∧
      (run_combined_iteration c1_state c1_ctx c1_ctx ge re c1_files
          "abc1234" "t1" "t2").rc = 0 := by
  intro ge re h1 h2
  have hge : ge = fun _ => .ok 0 := funext h1
  have hre : re = fun _ => .ok 0 := funext h2
  subst hge
  subst hre
  exact ⟨rfl, rfl, rfl, rfl⟩

/-- Witness for C1, at the everywhere-successful executors. -/
theorem c1_run_combined_standard_success_witness :
    (run_combined_iteration c1_state c1_ctx c1_ctx (fun _ => .ok 0) (fun _ => .ok 0)
        c1_files "abc1234" "t1" "t2").executed = ["supervisor.md", "main.md"] ∧
    (run_combined_iteration c1_state c1_ctx c1_ctx (fun _ => .ok 0) (fun _ => .ok 0)
        c1_files "abc1234" "t1" "t2").state.step_index = 2 ∧
    (run_combined_iteration c1_state c1_ctx c1_ctx (fun _ => .ok 0) (fun _ => .ok 0)
        c1_files "abc1234" "t1" "t2").state.status = "complete" ∧
    (run_combined_iteration c1_state c1_ctx c1_ctx (fun _ => .ok 0) (fun _ => .ok 0)
        c1_files "abc1234" "t1" "t2").rc = 0 :=
  c1_run_combined_standard_success (fun _ => .ok 0) (fun _ => .ok 0)
    (fun _ => rfl) (fun _ => rfl)

/-- C2: an unhandled exception during either role's turn is caught by
`run_combined_iteration`: it returns 2, stamps `status="failed"`, persists
that state (it is the last state handed to the writer), and leaves
`step_index` at its pre-turn value (`state.step_index` when role A's turn
raised; `state.step_index + 1`, the value set by role A's success stamp,
when role B's turn raised).  Role B's turn contributes executor invocations
only after role A's turn returned 0. -/
theorem c2_run_combined_exception_boundary :
    ∀ (state : OrchestrationState) (gctx rctx : RouterContext)
      (ge re : String → Except PyExc Int) (files : List String)
      (head now lease : String),
      (∀ e, (galphTurn state gctx ge files).result = .error e →
        (run_combined_iteration state gctx rctx ge re files head now lease).rc = 2 ∧
        (run_combined_iteration state gctx rctx ge re files head now lease).state.status =
          "failed" ∧
        (run_combined_iteration state gctx rctx ge re files head now lease).state.step_index =
          state.step_index ∧
        (run_combined_iteration state gctx rctx ge re files head now lease).writes.getLast? =
          some (run_combined_iteration state gctx rctx ge re files head now lease).state ∧
        (run_combined_iteration state gctx rctx ge re files head now lease).executed =
          (galphTurn state gctx ge files).executed) ∧
      (∀ p e, (galphTurn state gctx ge files).result = .ok (0, p) →
        (ralphTurn state gctx rctx ge re files head now lease).result = .error e →
        (run_combined_iteration state gctx rctx ge re files head now lease).rc = 2 ∧
        (run_combined_iteration state gctx rctx ge re files head now lease).state.status =
          "failed" ∧
        (run_combined_iteration state gctx rctx ge re files head now lease).state.step_index =
          state.step_index + 1 ∧
        (run_combined_iteration state gctx rctx ge re files head now lease).writes.getLast? =
          some (run_combined_iteration state gctx rctx ge re files head now lease).state ∧
        (run_combined_iteration state gctx rctx ge re files head now lease).executed =
          (galphTurn state gctx ge files).executed ++
            (ralphTurn state gctx rctx ge re files head now lease).executed) := by
  intro state gctx rctx ge re files head now lease
  constructor
  · intro e hg
    have hg2 : (run_turn { state with status := "running" } gctx ge files).result =
        .error e := hg
    have hout : run_combined_iteration state gctx rctx ge re files head now lease =
        { rc := 2
          state := (run_turn { state with status := "running" } gctx ge files).state.stamp
            { status := some "failed", galph_commit := some head } now lease
          writes := [{ state with status := "running" },
            (run_turn { state with status := "running" } gctx ge files).state.stamp
              { status := some "failed", galph_commit := some head } now lease]
          executed := (run_turn { state with status := "running" } gctx ge files).executed } := by
      simp only [run_combined_iteration]
      rw [hg2]
    rw [hout]
    exact ⟨rfl, by simp [stamp_spec], by simp [stamp_spec, run_turn_state_step_index],
      rfl, rfl⟩
  · intro p e hg hr
    have hg2 : (run_turn { state with status := "running" } gctx ge files).result =
        .ok (0, p) := hg
    have hr2 : (run_turn
        { (run_turn { state with status := "running" } gctx ge files).state.stamp
            { status := some "waiting-next", increment_step := true, galph_commit := some head }
            now lease with status := "running" } rctx re files).result = .error e := hr
    have hout : run_combined_iteration state gctx rctx ge re files head now lease =
        { rc := 2
          state := (run_turn
            { (run_turn { state with status := "running" } gctx ge files).state.stamp
                { status := some "waiting-next", increment_step := true,
                  galph_commit := some head }
                now lease with status := "running" } rctx re files).state.stamp
            { status := some "failed", ralph_commit := some head } now lease
          writes := [{ state with status := "running" },
            (run_turn { state with status := "running" } gctx ge files).state.stamp
              { status := some "waiting-next", increment_step := true,
                galph_commit := some head } now lease,
            { (run_turn { state with status := "running" } gctx ge files).state.stamp
                { status := some "waiting-next", increment_step := true,
                  galph_commit := some head }
                now lease with status := "running" },
            (run_turn
              { (run_turn { state with status := "running" } gctx ge files).state.stamp
                  { status := some "waiting-next", increment_step := true,
                    galph_commit := some head }
                  now lease with status := "running" } rctx re files).state.stamp
              { status := some "failed", ralph_commit := some head } now lease]
          executed := (run_turn { state with status := "running" } gctx ge files).executed ++
            (run_turn
              { (run_turn { state with status := "running" } gctx ge files).state.stamp
                  { status := some "waiting-next", increment_step := true,
                    galph_commit := some head }
                  now lease with status := "running" } rctx re files).executed } := by
      simp only [run_combined_iteration]
      rw [hg2]
      dsimp only
      rw [if_neg (by decide : ¬ ((0 : Int) ≠ 0))]
      rw [hr2]
    rw [hout]
    exact ⟨rfl, by simp [stamp_spec], by simp [stamp_spec, run_turn_state_step_index],
      rfl, rfl⟩

/-- Witness for C2 (role A path): with `supervisor.md` absent from the
filesystem, role A's selection raises, the iteration returns 2 with a
persisted `failed` state, `step_index` unchanged, and no role B activity. -/
theorem c2_run_combined_exception_boundary_witness :
    (run_combined_iteration c1_state c1_ctx c1_ctx (fun _ => .ok 0) (fun _ => .ok 0)
        ["prompts/main.md"] "abc1234" "t1" "t2").rc = 2 ∧
    (run_combined_iteration c1_state c1_ctx c1_ctx (fun _ => .ok 0) (fun _ => .ok 0)
        ["prompts/main.md"] "abc1234" "t1" "t2").state.status = "failed" ∧
    (run_combined_iteration c1_state c1_ctx c1_ctx (fun _ => .ok 0) (fun _ => .ok 0)
        ["prompts/main.md"] "abc1234" "t1" "t2").state.step_index = c1_state.step_index ∧
    (run_combined_iteration c1_state c1_ctx c1_ctx (fun _ => .ok 0) (fun _ => .ok 0)
        ["prompts/main.md"] "abc1234" "t1" "t2").writes.getLast? =
      some (run_combined_iteration c1_state c1_ctx c1_ctx (fun _ => .ok 0) (fun _ => .ok 0)
        ["prompts/main.md"] "abc1234" "t1" "t2").state ∧
    (run_combined_iteration c1_state c1_ctx c1_ctx (fun _ => .ok 0) (fun _ => .ok 0)
        ["prompts/main.md"] "abc1234" "t1" "t2").executed =
      (galphTurn c1_state c1_ctx (fun _ => .ok 0) ["prompts/main.md"]).executed :=
  (c2_run_combined_exception_boundary c1_state c1_ctx c1_ctx (fun _ => .ok 0)
      (fun _ => .ok 0) ["prompts/main.md"] "abc1234" "t1" "t2").1
    (.fileNotFound "Prompt file not found") rfl
